import Mathlib

/-!
Verification of the `dater-mobile` client core (`src/lib/api.ts`,
`src/lib/config.ts`, and the discover listing of
`src/app/(tabs)/index.tsx`) against its specification.

The TypeScript code is shallowly embedded: each exported function of
`lib/api.ts` becomes a Lean function.  Asynchronous effects are made
explicit: the token store is threaded as a value, and the remote
service is a parameter `respond : Request → Response` supplying the
HTTP response for the request the client builds.  A fallible call
returns `Except ApiError _`.
-/

/-- The value `Platform.OS` as it is branched on in `lib/api.ts`: the code
distinguishes only `'web'` from everything else (native). -/
inductive PlatformOS where
  | web
  | native
deriving DecidableEq, Repr

/-- The platform storage environment seen by `getToken` / `setToken` /
`clearToken` (`lib/api.ts` lines 7–32).  `backing` is the value stored
under the single key `TOKEN_KEY = 'dater_token'` in the platform store
(`localStorage` on web, `expo-secure-store` on native).
`localStorageAvailable` embeds the guard
`typeof localStorage !== 'undefined'`.  `secureStoreAvailable = false`
models the native secure-store primitive being unavailable, in which
case `SecureStore.getItemAsync` rejects its promise; the source has no
`try`/`catch` around that call. -/
structure StorageEnv where
  os : PlatformOS
  localStorageAvailable : Bool
  secureStoreAvailable : Bool
  backing : Option String
deriving DecidableEq, Repr

/-- Embedding of `getToken` (`lib/api.ts` lines 7–12).  Web: returns
`localStorage.getItem(TOKEN_KEY)` when `localStorage` exists, else
`null`.  Native: returns `SecureStore.getItemAsync(TOKEN_KEY)`
unchanged — a rejection of that promise (secure store unavailable)
propagates, which the `Except.error` branch records. -/
def getToken (env : StorageEnv) : Except String (Option String) :=
  match env.os with
  | .web => .ok (if env.localStorageAvailable then env.backing else none)
  | .native =>
      if env.secureStoreAvailable then .ok env.backing
      else .error "SecureStore unavailable"

/-- Embedding of `setToken` (`lib/api.ts` lines 14–22): web writes
`localStorage.setItem(TOKEN_KEY, token)` only when `localStorage`
exists; native calls `SecureStore.setItemAsync(TOKEN_KEY, token)`
(modelled with the primitive succeeding). -/
def setToken (env : StorageEnv) (token : String) : StorageEnv :=
  match env.os with
  | .web =>
      if env.localStorageAvailable then { env with backing := some token } else env
  | .native => { env with backing := some token }

/-- Embedding of `clearToken` (`lib/api.ts` lines 24–32): web removes the key only
when `localStorage` exists; native calls
`SecureStore.deleteItemAsync(TOKEN_KEY)` (modelled with the primitive
succeeding). -/
def clearToken (env : StorageEnv) : StorageEnv :=
  match env.os with
  | .web =>
      if env.localStorageAvailable then { env with backing := none } else env
  | .native => { env with backing := none }

/-- Whether the platform store behind the Token Store is reachable on
the current platform. -/
def storageAvailable (env : StorageEnv) : Bool :=
  match env.os with
  | .web => env.localStorageAvailable
  | .native => env.secureStoreAvailable

/-- A write to the Token Store: `setToken t` or `clearToken`. -/
inductive TokenWrite where
  | set (t : String)
  | clear
deriving DecidableEq, Repr

/-- Apply one Token Store write to the storage environment. -/
def applyWrite (env : StorageEnv) (w : TokenWrite) : StorageEnv :=
  match w with
  | .set t => setToken env t
  | .clear => clearToken env

/-- Apply a sequence of Token Store writes in order. -/
def applyWrites (env : StorageEnv) (ws : List TokenWrite) : StorageEnv :=
  ws.foldl applyWrite env

/-- The store value a write establishes: `some t` for `set t`, `none`
for `clear`. -/
def lastWriteValue : TokenWrite → Option String
  | .set t => some t
  | .clear => none

/-- A minimal JSON value model for response payloads and request
bodies. -/
inductive Json where
  | null
  | bool (b : Bool)
  | num (n : Int)
  | str (s : String)
  | arr (items : List Json)
  | obj (fields : List (String × Json))

/-- JS property access `o[k]` on a parsed JSON value: the value of the
first field with that key when `o` is an object, `undefined` (here
`none`) otherwise. -/
def Json.getField : Json → String → Option Json
  | .obj fields, k => (fields.find? (fun p => p.1 == k)).map (fun p => p.2)
  | _, _ => none

/-- A file appended to a FormData: `{ uri, type, name }` as built by
the upload call sites. -/
structure ImageFile where
  uri : String
  type : String
  name : String
deriving DecidableEq, Repr

/-- A request body: a JSON document (`JSON.stringify` of the payload)
or a multipart FormData (a list of field-name/file pairs). -/
inductive ReqBody where
  | jsonBody (v : Json)
  | multipartBody (parts : List (String × ImageFile))

/-- A request as handed to `fetch`: absolute URL, method (`fetch`
defaults to GET), the header object, and an optional body. -/
structure Request where
  url : String
  method : String
  headers : List (String × String)
  body : Option ReqBody

/-- A response from the remote service: status code, response headers,
and the parsed JSON payload (`response.json()`). -/
structure Response where
  status : Nat
  headers : List (String × String)
  body : Json

/-- The check `response.ok`: status in [200, 300). -/
def respOk (r : Response) : Bool :=
  decide (200 ≤ r.status ∧ r.status < 300)

/-- The read `response.headers.get(k)`: the first header with that key, or
`null`. -/
def headersGet (hs : List (String × String)) (k : String) : Option String :=
  (hs.find? (fun p => p.1 == k)).map (fun p => p.2)

/-- Reading key `k` from a JS object literal assembled left to right:
a later entry with the same key shadows an earlier one, so the search
runs from the right. -/
def jsObjectLookup (fields : List (String × String)) (k : String) : Option String :=
  (fields.reverse.find? (fun p => p.1 == k)).map (fun p => p.2)

/-- The error conditions thrown by the client: `AUTH_EXPIRED` from
`withAuthFetch`, and the generic `Error(msg)` of each operation. -/
inductive ApiError where
  | authExpired
  | requestFailed (msg : String)
deriving DecidableEq, Repr

/-- The `options :  RequestInit` argument of `withAuthFetch`. -/
structure FetchOptions where
  method : Option String
  headers : List (String × String)
  body : Option ReqBody

/-- Empty options, the `{}` default of `withAuthFetch`. -/
def FetchOptions.empty : FetchOptions :=
  { method := none, headers := [], body := none }

/-- The request `withAuthFetch` issues (`lib/api.ts` lines 54–62): URL
is the configured base URL concatenated with the path, and the header
object is `{ Authorization: token ?? '', ...(options.headers ?? {}) }`
— the stored token raw (empty string when absent), with the options
headers spread after it, so a later entry with the same key would
shadow it (`jsObjectLookup` therefore reads from the right). -/
def authRequest (baseUrl path : String) (opts : FetchOptions)
    (store : Option String) : Request :=
  { url := baseUrl ++ path
    method := opts.method.getD "GET"
    headers := ("Authorization", store.getD "") :: opts.headers
    body := opts.body }

/-- Outcome of one `withAuthFetch` call: the request it issued, the
result (response or thrown error), and the Token Store contents after
the call. -/
structure FetchResult where
  request : Request
  result : Except ApiError Response
  store : Option String

/-- Embedding of `withAuthFetch` (`lib/api.ts` lines 54–70): reads the token,
issues the request, and on status 401 or 403 clears the Token Store
and throws `AUTH_EXPIRED`; otherwise returns the response.  At this
layer the Token Store is modelled by the value `getToken` yields
(`Option String`, the platform backend functioning; the
availability failure mode is modelled on `getToken` above), and the
remote service by `respond`, giving the response to the issued
request. -/
def withAuthFetch (baseUrl path : String) (opts : FetchOptions)
    (store : Option String) (respond : Request → Response) : FetchResult :=
  let req := authRequest baseUrl path opts store
  let resp := respond req
  if resp.status == 401 || resp.status == 403 then
    { request := req, result := .error .authExpired, store := none }
  else
    { request := req, result := .ok resp, store := store }

/-- Outcome of one Domain Operation: the requests it issued, its
result, and the Token Store contents afterwards. -/
structure OpResult (α : Type) where
  requests : List Request
  result : Except ApiError α
  store : Option String

/-- The unwrap `data.<key> ?? []`: the nullish-coalescing unwrap used by every
list-returning operation — the field's value when present and
non-null, the empty array when the field is missing or null. -/
def collectionField (body : Json) (key : String) : Json :=
  match body.getField key with
  | some Json.null => Json.arr []
  | some v => v
  | none => Json.arr []

/-- Common shape of the list-returning operations (`fetchDates`,
`fetchDateImages`, `fetchProfileImages`, `fetchAttendeeRequests`): GET
the path through `withAuthFetch`, throw `Error(errMsg)` on a non-ok
status, else return `data.<key> ?? []`. -/
def getCollection (baseUrl path errMsg key : String)
    (store : Option String) (respond : Request → Response) : OpResult Json :=
  let f := withAuthFetch baseUrl path FetchOptions.empty store respond
  match f.result with
  | .error e => { requests := [f.request], result := .error e, store := f.store }
  | .ok resp =>
      if respOk resp then
        { requests := [f.request]
          result := .ok (collectionField resp.body key)
          store := f.store }
      else
        { requests := [f.request]
          result := .error (.requestFailed errMsg)
          store := f.store }

/-- Embedding of `fetchDates` (`lib/api.ts` lines 99–108): GET
`/dates?filter=<filter>`, throw 'Failed to load dates.' on a non-ok
status, else return `data.dateEventData ?? []`. -/
def fetchDates (baseUrl filter : String) (store : Option String)
    (respond : Request → Response) : OpResult Json :=
  getCollection baseUrl ("/dates?filter=" ++ filter) "Failed to load dates."
    "dateEventData" store respond

/-- Embedding of `fetchDateImages` (`lib/api.ts` lines 200–209): GET
`/dates/<dateId>/images`, throw 'Failed to load date images.' on a
non-ok status, else return `data.dateImageData ?? []`. -/
def fetchDateImages (baseUrl dateId : String) (store : Option String)
    (respond : Request → Response) : OpResult Json :=
  getCollection baseUrl ("/dates/" ++ dateId ++ "/images")
    "Failed to load date images." "dateImageData" store respond

/-- Embedding of `fetchProfileImages` (`lib/api.ts` lines 254–263): GET
`/users/images`, throw 'Failed to load profile images.' on a non-ok
status, else return `data.profileImageData ?? []`. -/
def fetchProfileImages (baseUrl : String) (store : Option String)
    (respond : Request → Response) : OpResult Json :=
  getCollection baseUrl "/users/images" "Failed to load profile images."
    "profileImageData" store respond

/-- Embedding of `fetchAttendeeRequests` (`lib/api.ts` lines 341–350): GET
`/dates/<dateId>/attendees`, throw 'Failed to load attendee requests.'
on a non-ok status, else return `data.dateAttendees ?? []`. -/
def fetchAttendeeRequests (baseUrl dateId : String) (store : Option String)
    (respond : Request → Response) : OpResult Json :=
  getCollection baseUrl ("/dates/" ++ dateId ++ "/attendees")
    "Failed to load attendee requests." "dateAttendees" store respond

/-- The request `login` issues (`lib/api.ts` lines 35–39): POST to
`<base>/login` with a JSON body `{ username, password }`. -/
def loginRequest (baseUrl username password : String) : Request :=
  { url := baseUrl ++ "/login"
    method := "POST"
    headers := [("Content-Type", "application/json")]
    body := some (.jsonBody (.obj
      [("username", .str username), ("password", .str password)])) }

/-- Embedding of `login` (`lib/api.ts` lines 34–52): throws 'Invalid credentials.'
on a non-ok status; otherwise reads the `Authorization` response
header — a missing or empty header (the JS falsy check `!token`)
throws 'Missing auth token.' — and otherwise stores the token via
`setToken` and returns it. -/
def login (baseUrl username password : String) (store : Option String)
    (respond : Request → Response) : OpResult String :=
  let req := loginRequest baseUrl username password
  let resp := respond req
  if respOk resp then
    match headersGet resp.headers "Authorization" with
    | some token =>
        if token == "" then
          { requests := [req]
            result := .error (.requestFailed "Missing auth token.")
            store := store }
        else
          { requests := [req], result := .ok token, store := some token }
    | none =>
        { requests := [req]
          result := .error (.requestFailed "Missing auth token.")
          store := store }
  else
    { requests := [req]
      result := .error (.requestFailed "Invalid credentials.")
      store := store }

/-- The FormData built by both upload operations: each image appended
under field name 'files'. -/
def filesFormData (images : List ImageFile) : List (String × ImageFile) :=
  images.map (fun img => ("files", img))

/-- Embedding of `uploadDateImages` (`lib/api.ts` lines 211–229): appends each
image to a FormData under 'files', POSTs it to
`/dates/<dateId>/images` through `withAuthFetch`, and throws 'Failed
to upload date images.' on a non-ok status. -/
def uploadDateImages (baseUrl dateId : String) (images : List ImageFile)
    (store : Option String) (respond : Request → Response) : OpResult Unit :=
  let f := withAuthFetch baseUrl ("/dates/" ++ dateId ++ "/images")
      { method := some "POST", headers := []
        body := some (.multipartBody (filesFormData images)) } store respond
  match f.result with
  | .error e => { requests := [f.request], result := .error e, store := f.store }
  | .ok resp =>
      if respOk resp then
        { requests := [f.request], result := .ok (), store := f.store }
      else
        { requests := [f.request]
          result := .error (.requestFailed "Failed to upload date images.")
          store := f.store }

/-- Embedding of `uploadProfileImages` (`lib/api.ts` lines 275–293): appends each
image to a FormData under 'files', POSTs it to `/users/images` through
`withAuthFetch`, and throws 'Failed to upload profile images.' on a
non-ok status. -/
def uploadProfileImages (baseUrl : String) (images : List ImageFile)
    (store : Option String) (respond : Request → Response) : OpResult Unit :=
  let f := withAuthFetch baseUrl "/users/images"
      { method := some "POST", headers := []
        body := some (.multipartBody (filesFormData images)) } store respond
  match f.result with
  | .error e => { requests := [f.request], result := .error e, store := f.store }
  | .ok resp =>
      if respOk resp then
        { requests := [f.request], result := .ok (), store := f.store }
      else
        { requests := [f.request]
          result := .error (.requestFailed "Failed to upload profile images.")
          store := f.store }

/-- The image-upload calls of the create-event flow:
`CreateDateScreen.handleCreate` (the `/date/new` screen, bundled in
`src/components/LoginForm.tsx`, lines 423–456) calls `createDate` and
then, only under the guard `images.length > 0` (line 435), makes the
single `uploadDateImages` call; with zero selected images no
image-upload call is performed. -/
def createDateFlowUploadRequests (baseUrl dateId : String)
    (images : List ImageFile) (store : Option String)
    (respond : Request → Response) : List Request :=
  if images.length > 0 then
    (uploadDateImages baseUrl dateId images store respond).requests
  else []

/-- The record `DateListItem` (`lib/api.ts` lines 91–97). -/
structure DateListItem where
  id : String
  title : String
  location : String
  description : String
  scheduledTime : String
deriving DecidableEq, Repr

/-- The client-side discover filter of `loadDates`
(`src/app/(tabs)/index.tsx` lines 46–50): the ids of the owned and
requested listings are collected into `excludedIds` (a JS `Set`, whose
`has` is membership — embedded as `List.contains` over the
concatenation of the spread arrays) and the 'all' listing is filtered
to the items whose id is not in it. -/
def discoverList (allDates ownedDates requestedDates : List DateListItem) :
    List DateListItem :=
  let excludedIds := ownedDates.map (fun item => item.id) ++
    requestedDates.map (fun item => item.id)
  allDates.filter (fun item => !(excludedIds.contains item.id))

/-- The filter object `loadDates` (`src/app/(tabs)/index.tsx` lines
38–42) passes as a second argument to `fetchDates`:
`{ latitude, longitude, radiusKm }`.  Coordinates are modelled as
integers; only their identity matters here. -/
structure DiscoverFilters where
  latitude : Option Int
  longitude : Option Int
  radiusKm : Option Int
deriving DecidableEq, Repr

/-- The request issued for the 'all' listing by `loadDates`:
`fetchDates` (`lib/api.ts` line 99) declares only the `filter`
parameter, so the second argument carrying the discover filters is
dropped at the call boundary (a JS function ignores extra arguments)
and the issued request is for `/dates?filter=all` whatever the
filters hold. -/
def loadDatesAllRequest (baseUrl : String) (filters : DiscoverFilters)
    (store : Option String) : Request :=
  authRequest baseUrl "/dates?filter=all" FetchOptions.empty store

lemma applyWrite_storageAvailable (env : StorageEnv) (w : TokenWrite) :
    storageAvailable (applyWrite env w) = storageAvailable env := by
  obtain ⟨os, ls, ss, b⟩ := env
  cases w <;> cases os <;> cases ls <;>
    simp [applyWrite, setToken, clearToken, storageAvailable]

lemma applyWrites_storageAvailable (env : StorageEnv) (ws : List TokenWrite) :
    storageAvailable (applyWrites env ws) = storageAvailable env := by
  induction ws generalizing env with
  | nil => rfl
  | cons w ws ih =>
      simp only [applyWrites, List.foldl_cons] at *
      rw [ih (applyWrite env w), applyWrite_storageAvailable]

lemma getToken_applyWrite (env : StorageEnv) (w : TokenWrite)
    (h : storageAvailable env = true) :
    getToken (applyWrite env w) = .ok (lastWriteValue w) := by
  obtain ⟨os, ls, ss, b⟩ := env
  cases w <;> cases os <;> cases ls <;> cases ss <;>
    simp_all [applyWrite, setToken, clearToken, getToken, lastWriteValue,
      storageAvailable]

lemma withAuthFetch_request (baseUrl path : String) (opts : FetchOptions)
    (store : Option String) (respond : Request → Response) :
    (withAuthFetch baseUrl path opts store respond).request =
      authRequest baseUrl path opts store := by
  unfold withAuthFetch
  dsimp only
  split <;> rfl

lemma withAuthFetch_ok_of_status (baseUrl path : String) (opts : FetchOptions)
    (store : Option String) (respond : Request → Response)
    (h1 : (respond (authRequest baseUrl path opts store)).status ≠ 401)
    (h2 : (respond (authRequest baseUrl path opts store)).status ≠ 403) :
    (withAuthFetch baseUrl path opts store respond).result =
      .ok (respond (authRequest baseUrl path opts store)) ∧
    (withAuthFetch baseUrl path opts store respond).store = store := by
  unfold withAuthFetch
  have hcond : ((respond (authRequest baseUrl path opts store)).status == 401 ||
      (respond (authRequest baseUrl path opts store)).status == 403) = false := by
    simp only [Bool.or_eq_false_iff, beq_eq_false_iff_ne, ne_eq]
    exact ⟨h1, h2⟩
  simp [hcond]

lemma getCollection_requests (baseUrl path errMsg key : String)
    (store : Option String) (respond : Request → Response) :
    (getCollection baseUrl path errMsg key store respond).requests =
      [authRequest baseUrl path FetchOptions.empty store] := by
  unfold getCollection
  cases h : (withAuthFetch baseUrl path FetchOptions.empty store respond).result with
  | error e => simp [h, withAuthFetch_request]
  | ok resp =>
      simp only [h]
      split <;> simp [withAuthFetch_request]

lemma getCollection_store (baseUrl path errMsg key : String)
    (store : Option String) (respond : Request → Response) :
    (getCollection baseUrl path errMsg key store respond).store =
      (withAuthFetch baseUrl path FetchOptions.empty store respond).store := by
  unfold getCollection
  cases h : (withAuthFetch baseUrl path FetchOptions.empty store respond).result with
  | error e => simp [h]
  | ok resp =>
      simp only [h]
      split <;> rfl

lemma getCollection_result_of_ok_missing (baseUrl path errMsg key : String)
    (store : Option String) (respond : Request → Response)
    (hok : respOk (respond (authRequest baseUrl path FetchOptions.empty store)) = true)
    (hmiss : Json.getField
      (respond (authRequest baseUrl path FetchOptions.empty store)).body key = none) :
    (getCollection baseUrl path errMsg key store respond).result =
      .ok (Json.arr []) := by
  have hlt : (respond (authRequest baseUrl path FetchOptions.empty store)).status < 300 := by
    have := of_decide_eq_true hok
    exact this.2
  have hres := withAuthFetch_ok_of_status baseUrl path FetchOptions.empty store respond
    (by omega) (by omega)
  unfold getCollection
  simp only [hres.1]
  simp [hok, collectionField, hmiss]

lemma uploadDateImages_requests (baseUrl dateId : String) (images : List ImageFile)
    (store : Option String) (respond : Request → Response) :
    (uploadDateImages baseUrl dateId images store respond).requests =
      [authRequest baseUrl ("/dates/" ++ dateId ++ "/images")
        { method := some "POST", headers := []
          body := some (.multipartBody (filesFormData images)) } store] := by
  unfold uploadDateImages
  cases h : (withAuthFetch baseUrl ("/dates/" ++ dateId ++ "/images")
      { method := some "POST", headers := []
        body := some (.multipartBody (filesFormData images)) } store respond).result with
  | error e => simp [h, withAuthFetch_request]
  | ok resp =>
      simp only [h]
      split <;> simp [withAuthFetch_request]

lemma uploadProfileImages_requests (baseUrl : String) (images : List ImageFile)
    (store : Option String) (respond : Request → Response) :
    (uploadProfileImages baseUrl images store respond).requests =
      [authRequest baseUrl "/users/images"
        { method := some "POST", headers := []
          body := some (.multipartBody (filesFormData images)) } store] := by
  unfold uploadProfileImages
  cases h : (withAuthFetch baseUrl "/users/images"
      { method := some "POST", headers := []
        body := some (.multipartBody (filesFormData images)) } store respond).result with
  | error e => simp [h, withAuthFetch_request]
  | ok resp =>
      simp only [h]
      split <;> simp [withAuthFetch_request]

/-- Claim C1: on any call through the authenticated HTTP client
answered with status 401 or 403, the Token Store holds absent after
the call resolves (whatever it held before) and the call fails with
the distinguished `AUTH_EXPIRED` condition rather than a generic
error. -/
theorem withAuthFetch_authExpired_clears_store (baseUrl path : String)
    (opts : FetchOptions) (store : Option String) (respond : Request → Response)
    (h : (respond (authRequest baseUrl path opts store)).status = 401 ∨
         (respond (authRequest baseUrl path opts store)).status = 403) :
    (withAuthFetch baseUrl path opts store respond).store = none ∧
    (withAuthFetch baseUrl path opts store respond).result =
      .error ApiError.authExpired := by
  unfold withAuthFetch
  rcases h with h | h <;> simp [h]

/-- Witness for C1 at a concrete 401 call on a store holding a
token. -/
theorem withAuthFetch_authExpired_clears_store_witness :
    (withAuthFetch "http://host:8080" "/dates?filter=all" FetchOptions.empty
      (some "tok")
      (fun _ => { status := 401, headers := [], body := Json.null })).store = none ∧
    (withAuthFetch "http://host:8080" "/dates?filter=all" FetchOptions.empty
      (some "tok")
      (fun _ => { status := 401, headers := [], body := Json.null })).result =
      .error ApiError.authExpired :=
  withAuthFetch_authExpired_clears_store _ _ _ _ _ (Or.inl rfl)

/-- Claim C10: when the response status is neither 401 nor 403, the
Token Store after the call equals its contents before — for
`withAuthFetch` itself and for a Domain Operation built on it
(`fetchDates`); in particular a call failing with the generic
`RequestFailed` condition leaves the stored token unchanged. -/
theorem nonAuth_status_preserves_store (baseUrl path filter : String)
    (opts : FetchOptions) (store : Option String) (respond : Request → Response)
    (h : ∀ r, (respond r).status ≠ 401 ∧ (respond r).status ≠ 403) :
    (withAuthFetch baseUrl path opts store respond).store = store ∧
    (fetchDates baseUrl filter store respond).store = store := by
  refine ⟨(withAuthFetch_ok_of_status _ _ _ _ _ (h _).1 (h _).2).2, ?_⟩
  unfold fetchDates
  rw [getCollection_store]
  exact (withAuthFetch_ok_of_status _ _ _ _ _ (h _).1 (h _).2).2

/-- Witness for C10 at a concrete 500 response (the `RequestFailed`
case). -/
theorem nonAuth_status_preserves_store_witness :
    (withAuthFetch "http://host:8080" "/profile" FetchOptions.empty
      (some "tok")
      (fun _ => { status := 500, headers := [], body := Json.null })).store =
        some "tok" ∧
    (fetchDates "http://host:8080" "all" (some "tok")
      (fun _ => { status := 500, headers := [], body := Json.null })).store =
        some "tok" :=
  nonAuth_status_preserves_store _ _ _ _ _ _ (fun _ => ⟨by decide, by decide⟩)

/-- Claim C2: every authenticated request is issued to the configured
base URL concatenated with the path and carries an `Authorization`
header holding exactly the stored token raw — no Bearer scheme — or
the empty string when no token is stored, provided the caller's
options do not shadow the `Authorization` entry (no call site in the
repository does); in particular with base `http://host:8080`,
`fetchDates` for filter 'all' issues a single GET to
`http://host:8080/dates?filter=all` carrying that header. -/
theorem authRequest_url_and_auth_header (baseUrl path : String)
    (opts : FetchOptions) (store : Option String) (respond : Request → Response)
    (hno : ∀ p ∈ opts.headers, p.1 ≠ "Authorization") :
    (withAuthFetch baseUrl path opts store respond).request.url = baseUrl ++ path ∧
    jsObjectLookup (withAuthFetch baseUrl path opts store respond).request.headers
      "Authorization" = some (store.getD "") ∧
    (fetchDates "http://host:8080" "all" store respond).requests =
      [{ url := "http://host:8080/dates?filter=all", method := "GET"
         headers := [("Authorization", store.getD "")], body := none }] := by
  rw [withAuthFetch_request]
  refine ⟨rfl, ?_, ?_⟩
  · unfold jsObjectLookup authRequest
    simp only [List.reverse_cons, List.find?_append]
    have hnone : opts.headers.reverse.find? (fun p => p.1 == "Authorization") = none := by
      rw [List.find?_eq_none]
      intro p hp hbeq
      exact hno p (List.mem_reverse.mp hp) (eq_of_beq hbeq)
    rw [hnone]
    simp
  · unfold fetchDates
    rw [getCollection_requests]
    rfl

/-- Witness for C2 with empty options, a stored token, and the spec's
base URL and path. -/
theorem authRequest_url_and_auth_header_witness :
    (withAuthFetch "http://host:8080" "/dates?filter=all" FetchOptions.empty
      (some "tok")
      (fun _ => { status := 200, headers := [], body := Json.null })).request.url =
        "http://host:8080" ++ "/dates?filter=all" ∧
    jsObjectLookup
      (withAuthFetch "http://host:8080" "/dates?filter=all" FetchOptions.empty
        (some "tok")
        (fun _ => { status := 200, headers := [], body := Json.null })).request.headers
      "Authorization" = some ((some "tok").getD "") ∧
    (fetchDates "http://host:8080" "all" (some "tok")
      (fun _ => { status := 200, headers := [], body := Json.null })).requests =
      [{ url := "http://host:8080/dates?filter=all", method := "GET"
         headers := [("Authorization", (some "tok").getD "")], body := none }] :=
  authRequest_url_and_auth_header "http://host:8080" "/dates?filter=all"
    FetchOptions.empty (some "tok")
    (fun _ => { status := 200, headers := [], body := Json.null })
    (fun p hp => absurd hp (List.not_mem_nil p))

/-- Claim C7: for each list-returning Domain Operation — events
listing, date images, profile images, attendee requests — a successful
response whose JSON payload lacks the expected collection field yields
the empty list rather than an error. -/
theorem missing_collection_field_yields_empty (baseUrl dateId filter : String)
    (store : Option String) (respond : Request → Response)
    (hok : ∀ r, respOk (respond r) = true)
    (h1 : Json.getField (respond (authRequest baseUrl ("/dates?filter=" ++ filter)
      FetchOptions.empty store)).body "dateEventData" = none)
    (h2 : Json.getField (respond (authRequest baseUrl ("/dates/" ++ dateId ++ "/images")
      FetchOptions.empty store)).body "dateImageData" = none)
    (h3 : Json.getField (respond (authRequest baseUrl "/users/images"
      FetchOptions.empty store)).body "profileImageData" = none)
    (h4 : Json.getField (respond (authRequest baseUrl ("/dates/" ++ dateId ++ "/attendees")
      FetchOptions.empty store)).body "dateAttendees" = none) :
    (fetchDates baseUrl filter store respond).result = .ok (Json.arr []) ∧
    (fetchDateImages baseUrl dateId store respond).result = .ok (Json.arr []) ∧
    (fetchProfileImages baseUrl store respond).result = .ok (Json.arr []) ∧
    (fetchAttendeeRequests baseUrl dateId store respond).result = .ok (Json.arr []) :=
  ⟨getCollection_result_of_ok_missing _ _ _ _ _ _ (hok _) h1,
   getCollection_result_of_ok_missing _ _ _ _ _ _ (hok _) h2,
   getCollection_result_of_ok_missing _ _ _ _ _ _ (hok _) h3,
   getCollection_result_of_ok_missing _ _ _ _ _ _ (hok _) h4⟩

/-- Witness for C7: a service answering 200 with the empty JSON object
as payload makes each operation yield the empty list. -/
theorem missing_collection_field_yields_empty_witness :
    (fetchDates "http://host:8080" "all" (some "tok")
      (fun _ => { status := 200, headers := [], body := Json.obj [] })).result =
        .ok (Json.arr []) ∧
    (fetchDateImages "http://host:8080" "7" (some "tok")
      (fun _ => { status := 200, headers := [], body := Json.obj [] })).result =
        .ok (Json.arr []) ∧
    (fetchProfileImages "http://host:8080" (some "tok")
      (fun _ => { status := 200, headers := [], body := Json.obj [] })).result =
        .ok (Json.arr []) ∧
    (fetchAttendeeRequests "http://host:8080" "7" (some "tok")
      (fun _ => { status := 200, headers := [], body := Json.obj [] })).result =
        .ok (Json.arr []) :=
  missing_collection_field_yields_empty "http://host:8080" "7" "all" (some "tok")
    (fun _ => { status := 200, headers := [], body := Json.obj [] })
    (fun _ => rfl) rfl rfl rfl rfl

/-- Claim C4: when the login response is successful and carries a
non-empty token in the `Authorization` response header, `login` stores
that token in the Token Store and returns it. -/
theorem login_stores_and_returns_token (baseUrl username password : String)
    (store : Option String) (respond : Request → Response) (token : String)
    (hok : respOk (respond (loginRequest baseUrl username password)) = true)
    (hheader : headersGet (respond (loginRequest baseUrl username password)).headers
      "Authorization" = some token)
    (hne : token ≠ "") :
    (login baseUrl username password store respond).result = .ok token ∧
    (login baseUrl username password store respond).store = some token := by
  have hbeq : (token == "") = false := beq_eq_false_iff_ne.mpr hne
  unfold login
  simp [hok, hheader, hbeq]

/-- Witness for C4: `login("alice","secret")` against a service
answering 200 with header `Authorization: tok123` returns `tok123` and
leaves the Token Store holding `tok123`. -/
theorem login_stores_and_returns_token_witness :
    (login "http://host:8080" "alice" "secret" none
      (fun _ => { status := 200
                  headers := [("Authorization", "tok123")]
                  body := Json.null })).result = .ok "tok123" ∧
    (login "http://host:8080" "alice" "secret" none
      (fun _ => { status := 200
                  headers := [("Authorization", "tok123")]
                  body := Json.null })).store = some "tok123" :=
  login_stores_and_returns_token "http://host:8080" "alice" "secret" none
    (fun _ => { status := 200
                headers := [("Authorization", "tok123")]
                body := Json.null })
    "tok123" rfl rfl (by decide)

/-- Claim C3: for every finite sequence of Token Store writes on a
reachable platform store, `getToken` returns the value established by
the last write — the token of a final `set`, absence after a final
`clear` — whatever the initial contents and the earlier writes; each
write fully replaces or removes the prior value. -/
theorem tokenStore_last_write_wins (env : StorageEnv)
    (ws : List TokenWrite) (w : TokenWrite)
    (h : storageAvailable env = true) :
    getToken (applyWrites env (ws ++ [w])) = .ok (lastWriteValue w) := by
  have hav : storageAvailable (applyWrites env ws) = true := by
    rw [applyWrites_storageAvailable]; exact h
  have happ : applyWrites env (ws ++ [w]) = applyWrite (applyWrites env ws) w := by
    simp [applyWrites, List.foldl_append]
  rw [happ, getToken_applyWrite _ _ hav]

/-- Witness for C3: two sets then a clear on web storage end in
absence; a clear then a set on native ends with that token. -/
theorem tokenStore_last_write_wins_witness :
    getToken (applyWrites ⟨PlatformOS.web, true, true, some "old"⟩
      ([TokenWrite.set "a", TokenWrite.set "b"] ++ [TokenWrite.clear])) = .ok none ∧
    getToken (applyWrites ⟨PlatformOS.native, false, true, none⟩
      ([TokenWrite.clear] ++ [TokenWrite.set "fresh"])) = .ok (some "fresh") :=
  ⟨tokenStore_last_write_wins _ _ _ rfl, tokenStore_last_write_wins _ _ _ rfl⟩

/-- Claim C9 counterexample: on native with the secure store
unavailable, `getToken` does not return absence — the rejection of
`SecureStore.getItemAsync` propagates, since `lib/api.ts` line 11 puts
no handler around it. -/
theorem getToken_native_unavailable_not_absent :
    getToken ⟨PlatformOS.native, true, false, some "tok"⟩ ≠ .ok none :=
  fun h => nomatch h

/-- Claim C9 (amended): when the platform storage is unavailable,
`getToken` returns absence on web (the `typeof localStorage` guard),
while on native it forwards the secure-store primitive's outcome
unchanged, so an unavailability failure propagates as an error instead
of absence. -/
theorem getToken_unavailable_by_platform (env : StorageEnv) :
    (env.os = PlatformOS.web → env.localStorageAvailable = false →
      getToken env = .ok none) ∧
    (env.os = PlatformOS.native → env.secureStoreAvailable = false →
      getToken env = .error "SecureStore unavailable") := by
  obtain ⟨os, ls, ss, b⟩ := env
  cases os <;> cases ls <;> cases ss <;>
    refine ⟨fun h1 h2 => ?_, fun h1 h2 => ?_⟩ <;>
    first
      | rfl
      | exact PlatformOS.noConfusion h1
      | exact Bool.noConfusion h2

/-- Witness for C9 (amended) at a web environment without
`localStorage` and a native environment with the secure store
unavailable. -/
theorem getToken_unavailable_by_platform_witness :
    getToken ⟨PlatformOS.web, false, true, some "t"⟩ = .ok none ∧
    getToken ⟨PlatformOS.native, true, false, some "t"⟩ =
      .error "SecureStore unavailable" :=
  ⟨(getToken_unavailable_by_platform ⟨PlatformOS.web, false, true, some "t"⟩).1
      rfl rfl,
   (getToken_unavailable_by_platform ⟨PlatformOS.native, true, false, some "t"⟩).2
      rfl rfl⟩

lemma contains_append_eq {α : Type} [BEq α] (l₁ l₂ : List α) (a : α) :
    (l₁ ++ l₂).contains a = (l₁.contains a || l₂.contains a) := by
  induction l₁ with
  | nil => simp
  | cons x xs ih => simp [List.contains_cons, ih, Bool.or_assoc]

/-- Claim C5: the discover listing displays exactly the items of the
'all' listing whose id occurs in neither the owned nor the requested
listing, in the order of the 'all' listing; on the spec's example —
ids 1, 2, 3 from 'all', id 2 owned, id 3 requested — exactly the item
with id 1 remains. -/
theorem discoverList_filters_owned_and_requested
    (allDates ownedDates requestedDates : List DateListItem) :
    discoverList allDates ownedDates requestedDates =
      allDates.filter (fun item =>
        !((ownedDates.map (fun o => o.id)).contains item.id) &&
        !((requestedDates.map (fun o => o.id)).contains item.id)) ∧
    discoverList
      [⟨"1", "t1", "l1", "d1", "s1"⟩, ⟨"2", "t2", "l2", "d2", "s2"⟩,
        ⟨"3", "t3", "l3", "d3", "s3"⟩]
      [⟨"2", "t2", "l2", "d2", "s2"⟩] [⟨"3", "t3", "l3", "d3", "s3"⟩] =
      [⟨"1", "t1", "l1", "d1", "s1"⟩] := by
  constructor
  · unfold discoverList
    apply List.filter_congr
    intro x hx
    rw [contains_append_eq]
    simp
  · rfl

/-- Claim C6 (failing on the code): `loadDates` hands the discover
filters — latitude, longitude, radius — to `fetchDates`, but
`fetchDates` declares only the `filter` parameter and drops them, so
any two calls, whatever their radius and location values, issue the
identical request: the query string never contains the radius or the
location. -/
theorem loadDates_filters_never_reach_query :
    (∀ (baseUrl : String) (f1 f2 : DiscoverFilters) (store : Option String),
      loadDatesAllRequest baseUrl f1 store = loadDatesAllRequest baseUrl f2 store) ∧
    loadDatesAllRequest "http://host:8080" ⟨some 1, some 2, some 10⟩ (some "tok") =
      loadDatesAllRequest "http://host:8080" ⟨some 1, some 2, some 20⟩ (some "tok") ∧
    (loadDatesAllRequest "http://host:8080" ⟨some 1, some 2, some 10⟩
      (some "tok")).url = "http://host:8080/dates?filter=all" :=
  ⟨fun _ _ _ _ => rfl, rfl, rfl⟩

/-- Claim C8: uploading N images — for a date or for the profile —
performs exactly one multipart request whose FormData carries the N
files, each appended under field name 'files'; the create-event flow
with zero selected images performs no upload call, and with a
non-empty selection it performs exactly the one `uploadDateImages`
call. -/
theorem upload_images_single_multipart_files (baseUrl dateId : String)
    (images : List ImageFile) (store : Option String)
    (respond : Request → Response) (h : images ≠ []) :
    createDateFlowUploadRequests baseUrl dateId [] store respond = [] ∧
    createDateFlowUploadRequests baseUrl dateId images store respond =
      (uploadDateImages baseUrl dateId images store respond).requests ∧
    (uploadDateImages baseUrl dateId images store respond).requests =
      [authRequest baseUrl ("/dates/" ++ dateId ++ "/images")
        { method := some "POST", headers := []
          body := some (.multipartBody (filesFormData images)) } store] ∧
    (uploadProfileImages baseUrl images store respond).requests =
      [authRequest baseUrl "/users/images"
        { method := some "POST", headers := []
          body := some (.multipartBody (filesFormData images)) } store] ∧
    (filesFormData images).length = images.length ∧
    (filesFormData images).all (fun p => p.1 == "files") = true := by
  have hpos : 0 < images.length := List.length_pos.mpr h
  refine ⟨rfl, ?_, uploadDateImages_requests _ _ _ _ _,
    uploadProfileImages_requests _ _ _ _, ?_, ?_⟩
  · simp [createDateFlowUploadRequests, hpos]
  · simp [filesFormData]
  · simp [filesFormData, List.all_eq_true]

/-- Witness for C8 with one selected image. -/
theorem upload_images_single_multipart_files_witness :
    createDateFlowUploadRequests "http://host:8080" "7" []
      none (fun _ => { status := 200, headers := [], body := Json.null }) = [] ∧
    createDateFlowUploadRequests "http://host:8080" "7"
      [⟨"file:///a.jpg", "image/jpeg", "a.jpg"⟩]
      none (fun _ => { status := 200, headers := [], body := Json.null }) =
      (uploadDateImages "http://host:8080" "7"
        [⟨"file:///a.jpg", "image/jpeg", "a.jpg"⟩]
        none (fun _ => { status := 200, headers := [], body := Json.null })).requests ∧
    (uploadDateImages "http://host:8080" "7"
      [⟨"file:///a.jpg", "image/jpeg", "a.jpg"⟩]
      none (fun _ => { status := 200, headers := [], body := Json.null })).requests =
      [authRequest "http://host:8080" ("/dates/" ++ "7" ++ "/images")
        { method := some "POST", headers := []
          body := some (.multipartBody
            (filesFormData [⟨"file:///a.jpg", "image/jpeg", "a.jpg"⟩])) } none] ∧
    (uploadProfileImages "http://host:8080"
      [⟨"file:///a.jpg", "image/jpeg", "a.jpg"⟩]
      none (fun _ => { status := 200, headers := [], body := Json.null })).requests =
      [authRequest "http://host:8080" "/users/images"
        { method := some "POST", headers := []
          body := some (.multipartBody
            (filesFormData [⟨"file:///a.jpg", "image/jpeg", "a.jpg"⟩])) } none] ∧
    (filesFormData [⟨"file:///a.jpg", "image/jpeg", "a.jpg"⟩]).length =
      [(⟨"file:///a.jpg", "image/jpeg", "a.jpg"⟩ : ImageFile)].length ∧
    (filesFormData [⟨"file:///a.jpg", "image/jpeg", "a.jpg"⟩]).all
      (fun p => p.1 == "files") = true :=
  upload_images_single_multipart_files "http://host:8080" "7"
    [⟨"file:///a.jpg", "image/jpeg", "a.jpg"⟩] none
    (fun _ => { status := 200, headers := [], body := Json.null })
    (List.cons_ne_nil _ _)
